import Mathlib

/-!
Verification of the two adapters in this repository against their design
spec: the Chronicle ingestion client (`chronicle_cls/utils/chronicle_client.py`)
and the Notifier ITSM adapter (`notifier_itsm/main.py`). Each Python routine
the claims touch is embedded as an executable Lean definition; the theorems
below settle the spec's claims about them.
-/

namespace Chronicle

/-- Parsed JSON values, as returned by `response.json()`. -/
inductive JsonVal where
  | null
  | bool (b : Bool)
  | num (n : Int)
  | str (s : String)
  | arr (elems : List JsonVal)
  | obj (fields : List (String × JsonVal))

/-- Lookup of a key among a parsed JSON object's fields: the value a Python
dict `.get(k)` yields (`none` is Python `None`). -/
def dictLookupJ (fs : List (String × JsonVal)) (k : String) : Option JsonVal :=
  (fs.find? (fun kv => kv.1 = k)).map (fun kv => kv.2)

/-- Python `v.get(k)` on a parsed JSON value: `.ok` the dict lookup when `v`
is an object, `.error ()` (an `AttributeError`) when `v` is not a dict. -/
def pyGet : JsonVal → String → Except Unit (Option JsonVal)
  | .obj fs, k => .ok (dictLookupJ fs k)
  | _, _ => .error ()

/-- Python `response.get("error").get(k)` on the parsed body (lines 154-156):
an `AttributeError` when the body is not a dict, when `"error"` is absent
(`None.get`), or when the `"error"` value is itself not a dict. -/
def errGet (body : JsonVal) (k : String) : Except Unit (Option JsonVal) :=
  match pyGet body "error" with
  | .error _ => .error ()
  | .ok Option.none => .error ()
  | .ok (some e) => pyGet e k

/-- The three sequential extractions `error.code`, `error.message`,
`error.status` of `ingest` (lines 154-156). -/
def envelopeFields (body : JsonVal) :
    Except Unit (Option JsonVal × Option JsonVal × Option JsonVal) :=
  match errGet body "code" with
  | .error e => .error e
  | .ok code =>
    match errGet body "message" with
    | .error e => .error e
    | .ok message =>
      match errGet body "status" with
      | .error e => .error e
      | .ok status => .ok (code, message, status)

/-- Python `parsed == {}`: a parsed JSON value equals the empty dict exactly
when it is an empty object. -/
def isEmptyObj : JsonVal → Bool
  | .obj [] => true
  | _ => false

/-- Python `status == "s"` for an extracted envelope field: a possibly-absent
value equals a string literal exactly when it is that string. -/
def isStr (v : Option JsonVal) (s : String) : Bool :=
  match v with
  | some (.str t) => t = s
  | _ => false

/-- The configuration keys `ingest` reads: `region`, `custom_region` (absent
keys modelled as `none`) and `customer_id`. -/
structure Config where
  region : Option String
  custom_region : Option String
  customer_id : String

/-- Python `table[r]` on a dict: the value, or a raised `KeyError` for a key
not in the table. -/
def dictIndex (table : List (String × String)) (r : String) : Except Unit String :=
  match table.find? (fun kv => kv.1 = r) with
  | some kv => .ok kv.2
  | Option.none => .error ()

/-- Modelled from the spec: the static region→URL table `DEFAULT_URL` is
defined in `chronicle_constants.py`, which is not among the sources. The spec
describes it as a "fixed set of named regions each mapping to a base URL"
with `usa` the baseline region, so it is modelled as a fixed association
table containing the baseline plus representative named regions (the exact
URLs and further region names are placeholders). -/
def DEFAULT_URL : List (String × String) :=
  [("usa", "https://usa.ingestion.example"),
   ("europe", "https://europe.ingestion.example"),
   ("asia-southeast1", "https://asia.ingestion.example")]

/-- The base-URL resolution at the top of `ChronicleClient.ingest`
(lines 86-89): a `custom` region reads `custom_region`, any other region is
looked up by dict indexing with `"usa"` substituted for an absent key. -/
def resolveBaseUrl (table : List (String × String)) (cfg : Config) :
    Except Unit String :=
  if cfg.region.getD "" = "custom" then .ok (cfg.custom_region.getD "")
  else dictIndex table (cfg.region.getD "usa")

/-- The full URL `ingest` posts to (line 91). -/
def targetUrl (table : List (String × String)) (cfg : Config) :
    Except Unit String :=
  (resolveBaseUrl table cfg).map (fun b => b ++ "/v2/udmevents:batchCreate")

/-- The raise sites inside the `try` of `ingest` that reach the final generic
`except Exception` handler (line 193) and are re-raised wrapped in
`GoogleChroniclePluginException`. -/
inductive InnerError where
  | keyErrorRegion
  | attrErrorResponseGet
  | attrErrorEnvelope
  | invalidCustomerID (message : Option JsonVal)
  | invalidEvent (message : Option JsonVal)
  | unknownStatus (code message status : Option JsonVal)

/-- The `GoogleChroniclePluginException` raised by `ingest`, tagged by the
branch that produced it. -/
inductive ChronicleError where
  | invalidJsonResponse
  | httpError
  | connectionError
  | timeout
  | unexpected (inner : InnerError)

/-- The two normal returns of `ingest`: `return True` (validation mode on an
empty body) and the bare `return`. -/
inductive IngestReturn where
  | retTrue
  | retNone

/-- The outcome of the one blocking HTTP request, an input to the embedding:
a response with its status code and the result `.json()` would give
(`.error ()` a `JSONDecodeError`), or one of the three `requests` exceptions. -/
inductive HttpOutcome where
  | response (status : Nat) (parse : Except Unit JsonVal)
  | httpError
  | connectionError
  | timeout

/-- Embedding of `ChronicleClient.ingest` (lines 72-202) with the HTTP exchange abstracted
as an input. `.ok` models a normal return, `.error` a raised
`GoogleChroniclePluginException`. The non-200 branch only logs; control then
falls through to `response.get("error")` on the raw `Response` object, which
has no `get` attribute, so that branch ends in a wrapped `AttributeError`. -/
def ingest (table : List (String × String)) (cfg : Config)
    (outcome : HttpOutcome) (is_validate : Bool) :
    Except ChronicleError IngestReturn :=
  match resolveBaseUrl table cfg with
  | .error _ => .error (.unexpected .keyErrorRegion)
  | .ok _ =>
    match outcome with
    | .httpError => .error .httpError
    | .connectionError => .error .connectionError
    | .timeout => .error .timeout
    | .response status parse =>
      if status ≠ 200 then
        .error (.unexpected .attrErrorResponseGet)
      else
        match parse with
        | .error _ => .error .invalidJsonResponse
        | .ok body =>
          if isEmptyObj body then
            if is_validate then .ok .retTrue else .ok .retNone
          else
            match envelopeFields body with
            | .error _ => .error (.unexpected .attrErrorEnvelope)
            | .ok (code, message, status) =>
              if isStr status "FAILED_PRECONDITION"
                  || isStr status "PERMISSION_DENIED" then
                .error (.unexpected (.invalidCustomerID message))
              else if isStr status "INVALID_ARGUMENT" then
                .error (.unexpected (.invalidEvent message))
              else
                .error (.unexpected (.unknownStatus code message status))

/-- Whether `ingest` returned normally (did not raise). -/
def isSuccess : Except ChronicleError IngestReturn → Bool
  | .ok _ => true
  | .error _ => false

/-- A configuration naming the baseline region. -/
def cfgUsa : Config :=
  { region := some "usa", custom_region := Option.none, customer_id := "cid" }

/-- A configuration naming a region that is not in the table. -/
def cfgAtlantis : Config :=
  { region := some "atlantis", custom_region := Option.none,
    customer_id := "cid" }

/-- A sample parsed error envelope's inner fields. -/
def efsEx : List (String × JsonVal) :=
  [("code", .num 400), ("message", .str "bad event"),
   ("status", .str "INVALID_ARGUMENT")]

end Chronicle

namespace Notifier

/-- Python values as `notifier_itsm/main.py` inspects them. `other` stands for
any value whose exact Python type is none of `str`, `int`, `bool`, `None`
(lists, dicts, floats, …): `_remove_empties` keeps none of those and they
compare unequal to the sentinel strings. -/
inductive PyVal where
  | str (s : String)
  | int (n : Int)
  | bool (b : Bool)
  | none
  | other
deriving DecidableEq, Repr

/-- The characters Python `str.strip()` removes. -/
def isPySpace (c : Char) : Bool :=
  c = ' ' || c = '\t' || c = '\n' || c = '\r' || c = '\x0b' || c = '\x0c'

/-- Python `s.strip()` (whitespace on both ends). -/
def pyStrip (s : String) : String :=
  ⟨((s.toList.dropWhile isPySpace).reverse.dropWhile isPySpace).reverse⟩

/-- The per-value keep condition of `NotifierPlugin._remove_empties`
(lines 188-203): a `str` whose strip is non-blank, or exactly an `int` or a
`bool`; everything else is dropped. -/
def keepValue : PyVal → Bool
  | .str s => pyStrip s ≠ ""
  | .int _ => true
  | .bool _ => true
  | _ => false

/-- Embedding of `NotifierPlugin._remove_empties`, on a dict given as its ordered items. -/
def remove_empties (data : List (String × PyVal)) : List (String × PyVal) :=
  data.filter (fun kv => keepValue kv.2)

/-- The sentinel coercion at the top of the loop in
`NotifierPlugin._get_args_from_params` (lines 266-272). -/
def coerceSentinel (v : PyVal) : PyVal :=
  if v = .str "boolean_true" then .bool true
  else if v = .str "boolean_false" then .bool false
  else v

/-- Embedding of `NotifierPlugin._get_args_from_params` (lines 260-278): coerce the two
boolean sentinels, then `_remove_empties`. -/
def get_args_from_params (params : List (String × PyVal)) :
    List (String × PyVal) :=
  remove_empties (params.map (fun kv => (kv.1, coerceSentinel kv.2)))

/-- The table access `MAPPED_FIELDS.get(platform, [])` (lines 62-79). -/
def MAPPED_FIELDS : String → List String
  | "email" => ["message", "subject", "to_"]
  | "gitter" => ["message"]
  | "gmail" => ["message", "subject", "to_"]
  | "hipchat" => ["message"]
  | "join" => ["message", "clipboard", "title"]
  | "mailgun" => ["message", "html", "subject"]
  | "pagerduty" => ["message"]
  | "popcornnotify" => ["message", "subject"]
  | "pushbullet" => ["message", "title", "url"]
  | "pushover" => ["message", "title", "url", "url_title"]
  | "simplepush" => ["message", "title"]
  | "slack" => ["message"]
  | "statuspage" => ["message", "body"]
  | "telegram" => ["message"]
  | "twilio" => ["message"]
  | "zulip" => ["message", "subject"]
  | _ => []

/-- The table access `PASSWORD_FIELDS.get(platform, [])` (lines 82-99). -/
def PASSWORD_FIELDS : String → List String
  | "email" => ["password"]
  | "gitter" => ["token"]
  | "gmail" => ["password"]
  | "hipchat" => ["token"]
  | "join" => ["apikey"]
  | "mailgun" => ["api_key"]
  | "pagerduty" => ["routing_key"]
  | "popcornnotify" => ["api_key"]
  | "pushbullet" => ["token"]
  | "pushover" => ["token"]
  | "simplepush" => ["key"]
  | "slack" => []
  | "statuspage" => ["api_key"]
  | "telegram" => ["token"]
  | "twilio" => ["auth_token"]
  | "zulip" => ["api_key"]
  | _ => []

/-- The table access `EXCLUDED_FIELDS.get(platform, [])` (lines 101-118). -/
def EXCLUDED_FIELDS : String → List String
  | "email" => ["attachments"]
  | "gmail" => ["attachments"]
  | "mailgun" => ["attachment"]
  | "pushbullet" => ["type_"]
  | "pushover" => ["attachment"]
  | _ => []

/-- A sub-schema inside a `oneOf` union, as far as `get_fields` reads it:
`x.get("type")` and `x.get("title")`. -/
structure SubSchema where
  type? : Option String
  title? : Option String
deriving DecidableEq, Repr

/-- One provider argument's declared schema, as far as `get_fields` reads it:
`val.get("type")`, the `"enum"` entry when present, `val.get("oneOf")`,
`val.get("title")` and `val.get("duplicate", False)`. -/
structure ArgSchema where
  type? : Option String
  enum? : Option (List String)
  oneOf? : Option (List SubSchema)
  title? : Option String
  duplicate : Bool
deriving DecidableEq, Repr

/-- Python `str.title()` for ASCII text: a letter that follows a non-letter
is uppercased, a letter that follows a letter is lowercased. -/
def pyTitleChars : Bool → List Char → List Char
  | _, [] => []
  | prev, c :: cs =>
    if c.isAlpha then
      (if prev then c.toLower else c.toUpper) :: pyTitleChars true cs
    else
      c :: pyTitleChars false cs

/-- Python `s.title()`. -/
def pyTitle (s : String) : String := ⟨pyTitleChars false s.toList⟩

/-- Python `s.split(sep)` for a single-character separator, on char lists:
splitting the empty string gives one empty part, and adjacent separators
yield empty parts. -/
def splitOnChar (sep : Char) : List Char → List (List Char)
  | [] => [[]]
  | c :: cs =>
    match splitOnChar sep cs with
    | [] => [[c]]
    | w :: ws => if c = sep then [] :: w :: ws else (c :: w) :: ws

/-- Python `" ".join(parts)` on char lists. -/
def joinSpace : List (List Char) → List Char
  | [] => []
  | [w] => w
  | w :: ws => w ++ ' ' :: joinSpace ws

/-- The label `" ".join(key.split("_")).title()` used throughout `get_fields`. -/
def fieldLabel (key : String) : String :=
  pyTitle ⟨joinSpace (splitOnChar '_' key.toList)⟩

/-- One UI field dict emitted by `get_fields`; dict entries the code does not
set are `none`. A choice is the pair of its `"key"` and `"value"` entries. -/
structure Field where
  label : String
  key : String
  type : String
  description : String
  choices : Option (List (String × String))
  default : Option String
deriving DecidableEq, Repr

/-- The per-argument classification chain of `get_fields` (lines 417-480),
after the three skip checks: `some` the emitted field dict, `none` when the
argument produces nothing. -/
def processArg (platform key : String) (val : ArgSchema) : Option Field :=
  if val.type? = some "string" then
    if val.enum?.isSome then
      some { label := fieldLabel key, key := key, type := "choice",
             description := "(" ++ key ++ ") " ++ val.title?.getD "",
             choices := some ((val.enum?.getD []).map (fun e => (pyTitle e, e))),
             default := some (match val.enum?.getD [] with
                              | [] => ""
                              | e :: _ => e) }
    else
      some { label := fieldLabel key, key := key,
             type := if key ∈ PASSWORD_FIELDS platform then "password"
                     else "text",
             description := "(" ++ key ++ ") " ++ val.title?.getD "",
             choices := Option.none, default := Option.none }
  else if val.type? = some "integer" then
    some { label := fieldLabel key, key := key, type := "number",
           description := "(" ++ key ++ ") " ++ val.title?.getD "",
           choices := Option.none, default := Option.none }
  else if val.oneOf?.isSome then
    match ((val.oneOf?.getD []).filter
        (fun x => x.type? = some "string")).getLast? with
    | Option.none => Option.none
    | some sf =>
      some { label := fieldLabel key, key := key, type := "text",
             description := "(" ++ key ++ ") " ++ sf.title?.getD "",
             choices := Option.none, default := Option.none }
  else if val.type? = some "boolean" then
    some { label := fieldLabel key, key := key, type := "choice",
           description := "(" ++ key ++ ") " ++ val.title?.getD "",
           choices := some [("Yes", "boolean_true"), ("No", "boolean_false")],
           default := some "boolean_true" }
  else
    Option.none

/-- The field-accumulation loop of `get_fields` over `notifier.arguments`
(lines 407-480); `keys` holds the argument names already claimed. An argument
that passes the three skip checks is added to `keys` whether or not it emits
a field, exactly as `keys.add(key)` runs before the classification chain. -/
def fieldsLoop (platform : String) :
    List (String × ArgSchema) → List String → List Field
  | [], _ => []
  | (key, val) :: rest, keys =>
    if val.duplicate then fieldsLoop platform rest keys
    else if key ∈ keys then fieldsLoop platform rest keys
    else if key ∈ MAPPED_FIELDS platform ∨ key ∈ EXCLUDED_FIELDS platform then
      fieldsLoop platform rest keys
    else
      match processArg platform key val with
      | some f => f :: fieldsLoop platform rest (key :: keys)
      | Option.none => fieldsLoop platform rest (key :: keys)

/-- Embedding of `NotifierPlugin.get_fields` (lines 389-488): the `"params"` step walks the
provider's argument schema; any other step name raises `NotImplementedError`,
modelled as `.error ()`. -/
def get_fields (name platform : String) (args : List (String × ArgSchema)) :
    Except Unit (List Field) :=
  if name = "params" then .ok (fieldsLoop platform args []) else .error ()

/-- Lookup in a string-keyed Python dict given as its ordered items. -/
def dictLookup (d : List (String × PyVal)) (k : String) : Option PyVal :=
  (d.find? (fun kv => kv.1 = k)).map (fun kv => kv.2)

/-- Python `{**a, **b}`: the entries of `a` in order with values overridden
by `b` where keys collide, then the entries of `b` whose keys are not in `a`,
in order. -/
def dictMerge (a b : List (String × PyVal)) : List (String × PyVal) :=
  a.map (fun kv => (kv.1, (dictLookup b kv.1).getD kv.2))
    ++ b.filter (fun kv => (dictLookup a kv.1).isNone)

/-- The host runtime's validation result value. -/
structure ValidationResult where
  success : Bool
  message : String
deriving DecidableEq, Repr

/-- The argument dict `validate_step` hands to `notifier._validate_data` for
the `"params"` step (lines 303-320): the resolved params overridden by a
blank string for every name in the provider's mapped-fields list. -/
def validate_step_args (platform : String) (params : List (String × PyVal)) :
    List (String × PyVal) :=
  dictMerge (get_args_from_params params)
    ((MAPPED_FIELDS platform).map (fun k => (k, PyVal.str "")))

/-- Embedding of `NotifierPlugin.validate_step` (lines 280-329), with the provider's own
`_validate_data` abstracted as a function: `.error msg` models a raised
`BadArguments` with that message. -/
def validate_step (name platform : String) (params : List (String × PyVal))
    (validator : List (String × PyVal) → Except String Unit) :
    ValidationResult :=
  if name ≠ "params" then
    { success := true, message := "Validation successful." }
  else
    match validator (validate_step_args platform params) with
    | .error m => { success := false, message := m }
    | .ok _ => { success := true, message := "Validation successful." }

/-- A union argument schema with two string-typed sub-schemas whose titles
differ, so that first and last sub-schema are distinguishable. -/
def oneOfTwoStrings : ArgSchema :=
  { type? := Option.none, enum? := Option.none,
    oneOf? := some [{ type? := some "string", title? := some "first title" },
                    { type? := some "string", title? := some "second title" }],
    title? := Option.none, duplicate := false }

/-- A boolean-typed argument schema. -/
def boolSchema : ArgSchema :=
  { type? := some "boolean", enum? := Option.none, oneOf? := Option.none,
    title? := some "send html", duplicate := false }

/-- The spec's worked example input to `_get_args_from_params`. -/
def exampleParams : List (String × PyVal) :=
  [("a", .str "boolean_true"), ("b", .str "boolean_false"), ("c", .str ""),
   ("d", .str "x"), ("e", .int 5), ("f", .none)]

/-- A small provider schema exercising the skip rules of `get_fields`:
`message` is in the mapped set for `email`, `attachments` in its excluded
set, and `username` appears twice. -/
def emailArgsEx : List (String × ArgSchema) :=
  [("message",
    { type? := some "string", enum? := Option.none, oneOf? := Option.none,
      title? := Option.none, duplicate := false }),
   ("attachments",
    { type? := some "string", enum? := Option.none, oneOf? := Option.none,
      title? := Option.none, duplicate := false }),
   ("username",
    { type? := some "string", enum? := Option.none, oneOf? := Option.none,
      title? := some "user name", duplicate := false }),
   ("username",
    { type? := some "integer", enum? := Option.none, oneOf? := Option.none,
      title? := Option.none, duplicate := false }),
   ("port",
    { type? := some "integer", enum? := Option.none, oneOf? := Option.none,
      title? := Option.none, duplicate := false })]

end Notifier

namespace Chronicle

theorem isEmptyObj_eq_true_iff (b : JsonVal) :
    isEmptyObj b = true ↔ b = .obj [] := by
  cases b with
  | obj fs => cases fs <;> simp [isEmptyObj]
  | null => simp [isEmptyObj]
  | bool b => simp [isEmptyObj]
  | num n => simp [isEmptyObj]
  | str s => simp [isEmptyObj]
  | arr es => simp [isEmptyObj]

theorem isStr_eq_true_iff (v : Option JsonVal) (s : String) :
    isStr v s = true ↔ v = some (.str s) := by
  cases v with
  | none => simp [isStr]
  | some j => cases j <;> simp [isStr]

theorem isStr_eq_false_of_ne (v : Option JsonVal) (s : String)
    (h : v ≠ some (.str s)) : isStr v s = false := by
  cases hb : isStr v s
  · rfl
  · exact absurd ((isStr_eq_true_iff v s).mp hb) h

theorem errGet_of_lookup (fs efs : List (String × JsonVal)) (k : String)
    (herr : dictLookupJ fs "error" = some (.obj efs)) :
    errGet (.obj fs) k = .ok (dictLookupJ efs k) := by
  simp [errGet, pyGet, herr]

theorem envelopeFields_of_lookup (fs efs : List (String × JsonVal))
    (herr : dictLookupJ fs "error" = some (.obj efs)) :
    envelopeFields (.obj fs)
      = .ok (dictLookupJ efs "code", dictLookupJ efs "message",
             dictLookupJ efs "status") := by
  rw [envelopeFields]
  rw [errGet_of_lookup fs efs _ herr, errGet_of_lookup fs efs _ herr,
    errGet_of_lookup fs efs _ herr]

/-- C1: the spec claims a non-200 response is logged and `ingest` returns
normally (soft failure). On the code, after logging, control falls through to
`response.get("error")` on the raw `Response` object; the resulting
`AttributeError` is wrapped and raised as `GoogleChroniclePluginException`,
so `ingest` raises for every non-200 status. -/
theorem c1_non200_falls_through_and_raises (table : List (String × String))
    (cfg : Config) (status : Nat) (parse : Except Unit JsonVal)
    (is_validate : Bool) (base : String)
    (hres : resolveBaseUrl table cfg = .ok base) (hs : status ≠ 200) :
    ingest table cfg (.response status parse) is_validate
      = .error (.unexpected .attrErrorResponseGet) := by
  unfold ingest
  rw [hres]
  simp [hs]

theorem c1_non200_falls_through_and_raises_witness :
    resolveBaseUrl DEFAULT_URL cfgUsa = .ok "https://usa.ingestion.example"
    ∧ (500 : Nat) ≠ 200
    ∧ ingest DEFAULT_URL cfgUsa (.response 500 (.ok (.obj []))) false
        = .error (.unexpected .attrErrorResponseGet) :=
  ⟨rfl, by decide,
   c1_non200_falls_through_and_raises DEFAULT_URL cfgUsa 500 (.ok (.obj []))
     false "https://usa.ingestion.example" rfl (by decide)⟩

/-- C2 counterexample: for the configured region `"atlantis"`, absent from
the table, the claim predicts the baseline `usa` URL is used; on the code the
dict indexing `DEFAULT_URL[region]` raises a `KeyError`, which is wrapped and
raised, so no request is made at all. -/
theorem c2_unknown_region_counterexample :
    resolveBaseUrl DEFAULT_URL cfgAtlantis = .error ()
    ∧ dictIndex DEFAULT_URL "usa" = .ok "https://usa.ingestion.example"
    ∧ ingest DEFAULT_URL cfgAtlantis (.response 200 (.ok (.obj []))) false
        = .error (.unexpected .keyErrorRegion)
    ∧ (Except.error () : Except Unit String)
        ≠ .ok "https://usa.ingestion.example" :=
  ⟨rfl, rfl, rfl, fun h => nomatch h⟩

/-- C2 amended: `ingest` targets the custom URL for region `custom`, the
table URL for a region in the table, and the baseline `usa` URL for an
absent region; but a present, unrecognized region raises the wrapped
`KeyError` instead of falling back to the baseline URL. -/
theorem c2_url_resolution_amended (table : List (String × String))
    (cfg : Config) (r u : String) :
    (cfg.region = some "custom" →
      targetUrl table cfg
        = .ok (cfg.custom_region.getD "" ++ "/v2/udmevents:batchCreate"))
    ∧ (cfg.region = some r → r ≠ "custom" → dictIndex table r = .ok u →
      targetUrl table cfg = .ok (u ++ "/v2/udmevents:batchCreate"))
    ∧ (cfg.region = Option.none → dictIndex table "usa" = .ok u →
      targetUrl table cfg = .ok (u ++ "/v2/udmevents:batchCreate"))
    ∧ (cfg.region = some r → r ≠ "custom" → dictIndex table r = .error () →
      ∀ (outcome : HttpOutcome) (is_validate : Bool),
        ingest table cfg outcome is_validate
          = .error (.unexpected .keyErrorRegion)) := by
  refine ⟨?_, ?_, ?_, ?_⟩
  · intro h
    simp [targetUrl, resolveBaseUrl, h, Except.map]
  · intro h hne hd
    simp [targetUrl, resolveBaseUrl, h, hne, hd, Except.map]
  · intro h hd
    simp [targetUrl, resolveBaseUrl, h, hd, Except.map]
  · intro h hne hd outcome is_validate
    unfold ingest
    simp [resolveBaseUrl, h, hne, hd]

/-- C3: for a 200 response whose parsed body carries a non-empty error
envelope, the raised error's kind follows the envelope's `status`:
`INVALID_ARGUMENT` raises the invalid-event error, `FAILED_PRECONDITION` or
`PERMISSION_DENIED` the invalid-customer-ID error, and anything else the
unknown-kind error carrying the envelope's code, message and status
verbatim. -/
theorem c3_envelope_status_dispatch (table : List (String × String))
    (cfg : Config) (base : String) (is_validate : Bool)
    (fs efs : List (String × JsonVal))
    (hres : resolveBaseUrl table cfg = .ok base)
    (herr : dictLookupJ fs "error" = some (.obj efs)) :
    (dictLookupJ efs "status" = some (.str "INVALID_ARGUMENT") →
      ingest table cfg (.response 200 (.ok (.obj fs))) is_validate
        = .error (.unexpected (.invalidEvent (dictLookupJ efs "message"))))
    ∧ ((dictLookupJ efs "status" = some (.str "FAILED_PRECONDITION")
        ∨ dictLookupJ efs "status" = some (.str "PERMISSION_DENIED")) →
      ingest table cfg (.response 200 (.ok (.obj fs))) is_validate
        = .error (.unexpected (.invalidCustomerID (dictLookupJ efs "message"))))
    ∧ (dictLookupJ efs "status" ≠ some (.str "INVALID_ARGUMENT") →
       dictLookupJ efs "status" ≠ some (.str "FAILED_PRECONDITION") →
       dictLookupJ efs "status" ≠ some (.str "PERMISSION_DENIED") →
      ingest table cfg (.response 200 (.ok (.obj fs))) is_validate
        = .error (.unexpected (.unknownStatus (dictLookupJ efs "code")
            (dictLookupJ efs "message") (dictLookupJ efs "status")))) := by
  have hne : isEmptyObj (.obj fs) = false := by
    cases fs with
    | nil => simp [dictLookupJ] at herr
    | cons kv rest => rfl
  have hred : ingest table cfg (.response 200 (.ok (.obj fs))) is_validate
      = (if isStr (dictLookupJ efs "status") "FAILED_PRECONDITION"
            || isStr (dictLookupJ efs "status") "PERMISSION_DENIED" then
          .error (.unexpected (.invalidCustomerID (dictLookupJ efs "message")))
        else if isStr (dictLookupJ efs "status") "INVALID_ARGUMENT" then
          .error (.unexpected (.invalidEvent (dictLookupJ efs "message")))
        else
          .error (.unexpected (.unknownStatus (dictLookupJ efs "code")
            (dictLookupJ efs "message") (dictLookupJ efs "status")))) := by
    unfold ingest
    rw [hres]
    simp only [envelopeFields_of_lookup fs efs herr, hne]
    simp
  refine ⟨?_, ?_, ?_⟩
  · intro hstat
    rw [hred, hstat]
    simp [isStr]
  · rintro (hstat | hstat) <;> rw [hred, hstat] <;> simp [isStr]
  · intro h1 h2 h3
    rw [hred, isStr_eq_false_of_ne _ _ h1, isStr_eq_false_of_ne _ _ h2,
      isStr_eq_false_of_ne _ _ h3]
    simp

theorem c3_envelope_status_dispatch_witness :
    resolveBaseUrl DEFAULT_URL cfgUsa = .ok "https://usa.ingestion.example"
    ∧ dictLookupJ [("error", JsonVal.obj efsEx)] "error" = some (.obj efsEx)
    ∧ ingest DEFAULT_URL cfgUsa
        (.response 200 (.ok (.obj [("error", .obj efsEx)]))) false
        = .error (.unexpected (.invalidEvent (some (.str "bad event")))) := by
  refine ⟨rfl, rfl, ?_⟩
  exact (c3_envelope_status_dispatch DEFAULT_URL cfgUsa
    "https://usa.ingestion.example" false [("error", .obj efsEx)] efsEx
    rfl rfl).1 rfl

/-- C4: on a 200 response with a parsed body, `ingest` returns normally
exactly when the body is the empty object; the empty object succeeds
unconditionally (`True` in validation mode, a bare return otherwise). A
non-empty body never returns normally, whatever its keys. -/
theorem c4_success_iff_empty_object (table : List (String × String))
    (cfg : Config) (base : String) (body : JsonVal) (is_validate : Bool)
    (hres : resolveBaseUrl table cfg = .ok base) :
    (isSuccess (ingest table cfg (.response 200 (.ok body)) is_validate)
        = true ↔ body = .obj [])
    ∧ ingest table cfg (.response 200 (.ok (.obj []))) true = .ok .retTrue
    ∧ ingest table cfg (.response 200 (.ok (.obj []))) false
        = .ok .retNone := by
  have hrun : ∀ (b : JsonVal) (v : Bool),
      ingest table cfg (.response 200 (.ok b)) v
        = (if isEmptyObj b then
            (if v then .ok .retTrue else .ok .retNone)
          else
            match envelopeFields b with
            | .error _ => .error (.unexpected .attrErrorEnvelope)
            | .ok (code, message, status) =>
              if isStr status "FAILED_PRECONDITION"
                  || isStr status "PERMISSION_DENIED" then
                .error (.unexpected (.invalidCustomerID message))
              else if isStr status "INVALID_ARGUMENT" then
                .error (.unexpected (.invalidEvent message))
              else
                .error (.unexpected (.unknownStatus code message status))) := by
    intro b v
    unfold ingest
    rw [hres]
    simp
  refine ⟨?_, by rw [hrun]; rfl, by rw [hrun]; rfl⟩
  rw [hrun]
  cases hb : isEmptyObj body with
  | true =>
    have hbody := (isEmptyObj_eq_true_iff body).mp hb
    simp only [if_pos rfl, hbody, if_true]
    cases is_validate <;> simp [isSuccess]
  | false =>
    have hbody : ¬ body = .obj [] := fun h => by
      rw [h] at hb
      exact absurd hb (by simp [isEmptyObj])
    simp only [Bool.false_eq_true, if_false]
    split
    · simp [isSuccess, hbody]
    · split_ifs <;> simp [isSuccess, hbody]

theorem c4_success_iff_empty_object_witness :
    resolveBaseUrl DEFAULT_URL cfgUsa = .ok "https://usa.ingestion.example"
    ∧ (isSuccess (ingest DEFAULT_URL cfgUsa
          (.response 200 (.ok (.obj [("ignored", .num 1)]))) false) = true
        ↔ JsonVal.obj [("ignored", .num 1)] = .obj [])
    ∧ ingest DEFAULT_URL cfgUsa (.response 200 (.ok (.obj []))) true
        = .ok .retTrue
    ∧ ingest DEFAULT_URL cfgUsa (.response 200 (.ok (.obj []))) false
        = .ok .retNone := by
  have h := c4_success_iff_empty_object DEFAULT_URL cfgUsa
    "https://usa.ingestion.example" (.obj [("ignored", .num 1)]) false rfl
  exact ⟨rfl, h.1, h.2.1, h.2.2⟩

end Chronicle

namespace Notifier

theorem processArg_key (platform key : String) (val : ArgSchema) (f : Field)
    (h : processArg platform key val = some f) : f.key = key := by
  unfold processArg at h
  repeat' split at h
  all_goals first
    | exact Option.noConfusion h
    | (injection h with h2; subst h2; rfl)

theorem fieldsLoop_key_not_skipped (platform : String)
    (args : List (String × ArgSchema)) (keys : List String) (f : Field)
    (hf : f ∈ fieldsLoop platform args keys) :
    f.key ∉ keys ∧ f.key ∉ MAPPED_FIELDS platform
      ∧ f.key ∉ EXCLUDED_FIELDS platform := by
  induction args generalizing keys with
  | nil => simp [fieldsLoop] at hf
  | cons kv rest ih =>
    obtain ⟨key, val⟩ := kv
    rw [fieldsLoop] at hf
    by_cases hdup : val.duplicate = true
    · rw [if_pos hdup] at hf
      exact ih keys hf
    · rw [if_neg hdup] at hf
      by_cases hkeys : key ∈ keys
      · rw [if_pos hkeys] at hf
        exact ih keys hf
      · rw [if_neg hkeys] at hf
        by_cases hme : key ∈ MAPPED_FIELDS platform
            ∨ key ∈ EXCLUDED_FIELDS platform
        · rw [if_pos hme] at hf
          exact ih keys hf
        · rw [if_neg hme] at hf
          cases hp : processArg platform key val with
          | none =>
            rw [hp] at hf
            obtain ⟨h1, h2, h3⟩ := ih (key :: keys) hf
            exact ⟨fun hk => h1 (List.mem_cons_of_mem _ hk), h2, h3⟩
          | some g =>
            rw [hp] at hf
            rcases List.mem_cons.mp hf with rfl | hf2
            · have hkey : f.key = key := processArg_key platform key val f hp
              rw [hkey]
              exact ⟨hkeys, fun h => hme (Or.inl h), fun h => hme (Or.inr h)⟩
            · obtain ⟨h1, h2, h3⟩ := ih (key :: keys) hf2
              exact ⟨fun hk => h1 (List.mem_cons_of_mem _ hk), h2, h3⟩

theorem fieldsLoop_keys_nodup (platform : String)
    (args : List (String × ArgSchema)) (keys : List String) :
    ((fieldsLoop platform args keys).map (fun f => f.key)).Nodup := by
  induction args generalizing keys with
  | nil => simp [fieldsLoop]
  | cons kv rest ih =>
    obtain ⟨key, val⟩ := kv
    rw [fieldsLoop]
    by_cases hdup : val.duplicate = true
    · rw [if_pos hdup]; exact ih keys
    · rw [if_neg hdup]
      by_cases hkeys : key ∈ keys
      · rw [if_pos hkeys]; exact ih keys
      · rw [if_neg hkeys]
        by_cases hme : key ∈ MAPPED_FIELDS platform
            ∨ key ∈ EXCLUDED_FIELDS platform
        · rw [if_pos hme]; exact ih keys
        · rw [if_neg hme]
          cases hp : processArg platform key val with
          | none => exact ih (key :: keys)
          | some g =>
            simp only [List.map_cons, List.nodup_cons]
            refine ⟨?_, ih (key :: keys)⟩
            intro hmem
            rcases List.mem_map.mp hmem with ⟨f, hf, hfk⟩
            have hnot := (fieldsLoop_key_not_skipped platform rest
              (key :: keys) f hf).1
            have hggk : g.key = key := processArg_key platform key val g hp
            exact hnot (by rw [hfk, hggk]; exact List.mem_cons_self _ _)

theorem dictLookup_cons (a : String) (v : PyVal)
    (rest : List (String × PyVal)) (k : String) :
    dictLookup ((a, v) :: rest) k
      = if a = k then some v else dictLookup rest k := by
  by_cases h : a = k <;> simp [dictLookup, List.find?, h]

theorem dictLookup_append (l₁ l₂ : List (String × PyVal)) (k : String) :
    dictLookup (l₁ ++ l₂) k
      = match dictLookup l₁ k with
        | some v => some v
        | Option.none => dictLookup l₂ k := by
  induction l₁ with
  | nil => simp [dictLookup]
  | cons kv rest ih =>
    obtain ⟨a, v⟩ := kv
    by_cases h : a = k <;>
      simp [List.cons_append, dictLookup_cons, h, ih]

theorem dictLookup_override (a b : List (String × PyVal)) (k : String) :
    dictLookup (a.map (fun kv => (kv.1, (dictLookup b kv.1).getD kv.2))) k
      = (dictLookup a k).map (fun v => (dictLookup b k).getD v) := by
  induction a with
  | nil => simp [dictLookup]
  | cons kv rest ih =>
    obtain ⟨x, v⟩ := kv
    by_cases h : x = k
    · subst h
      simp [dictLookup_cons]
    · simp [dictLookup_cons, h, ih]

theorem dictLookup_filter (b : List (String × PyVal))
    (q : String × PyVal → Bool) (k : String)
    (hq : ∀ v, q (k, v) = true) :
    dictLookup (b.filter q) k = dictLookup b k := by
  induction b with
  | nil => rfl
  | cons kv rest ih =>
    obtain ⟨x, v⟩ := kv
    by_cases h : x = k
    · subst h
      simp [List.filter_cons, hq v, dictLookup_cons, ih]
    · cases hqx : q (x, v) <;>
        simp [List.filter_cons, hqx, dictLookup_cons, h, ih]

theorem dictLookup_blank_map (ks : List String) (k : String) (hk : k ∈ ks) :
    dictLookup (ks.map (fun x => (x, PyVal.str ""))) k
      = some (PyVal.str "") := by
  induction ks with
  | nil => cases hk
  | cons a l ih =>
    by_cases h : a = k
    · simp [dictLookup_cons, h]
    · rcases List.mem_cons.mp hk with h2 | h2
      · exact absurd h2.symm h
      · simp [dictLookup_cons, h, ih h2]

theorem dictLookup_dictMerge_blank (a : List (String × PyVal))
    (ks : List String) (k : String) (hk : k ∈ ks) :
    dictLookup (dictMerge a (ks.map (fun x => (x, PyVal.str "")))) k
      = some (PyVal.str "") := by
  have hb := dictLookup_blank_map ks k hk
  unfold dictMerge
  rw [dictLookup_append, dictLookup_override]
  cases ha : dictLookup a k with
  | some v => simp [hb]
  | none =>
    simp only [Option.map_none']
    rw [dictLookup_filter _ _ k (fun v => by simp [ha])]
    exact hb

/-- C5 counterexample: for a union argument with two string-typed sub-schemas
(`first title`, `second title`), the claim predicts a text field derived from
the first sub-schema, with description `(fallback) first title`; the code's
`string_fields.pop()` takes the last element, so the emitted description is
`(fallback) second title`. -/
theorem c5_one_of_counterexample :
    (fieldsLoop "email" [("fallback", oneOfTwoStrings)] []).map
        (fun f => f.description)
      = ["(fallback) second title"]
    ∧ ("(fallback) second title" : String) ≠ "(fallback) first title" :=
  ⟨rfl, by decide⟩

/-- C5 amended: for a union (`oneOf`) argument not claimed by the string or
integer branches, `get_fields` emits a text field derived from the LAST
string-typed sub-schema (`list.pop()` removes the last element) when at
least one exists, and skips the argument entirely when none exists. -/
theorem c5_one_of_last_string (platform key : String) (val : ArgSchema)
    (subs : List SubSchema) (sf : SubSchema)
    (hstr : val.type? ≠ some "string") (hint : val.type? ≠ some "integer")
    (hone : val.oneOf? = some subs) :
    (subs.filter (fun x => x.type? = some "string") = [] →
      processArg platform key val = Option.none)
    ∧ ((subs.filter (fun x => x.type? = some "string")).getLast? = some sf →
      processArg platform key val
        = some { label := fieldLabel key, key := key, type := "text",
                 description := "(" ++ key ++ ") " ++ sf.title?.getD "",
                 choices := Option.none, default := Option.none }) := by
  constructor
  · intro h
    simp [processArg, hstr, hint, hone, h]
  · intro h
    simp [processArg, hstr, hint, hone, h]

theorem c5_one_of_last_string_witness :
    ((oneOfTwoStrings.type? ≠ some "string")
      ∧ (oneOfTwoStrings.type? ≠ some "integer")
      ∧ oneOfTwoStrings.oneOf?
          = some [{ type? := some "string", title? := some "first title" },
                  { type? := some "string", title? := some "second title" }])
    ∧ processArg "email" "fallback" oneOfTwoStrings
        = some { label := "Fallback", key := "fallback", type := "text",
                 description := "(fallback) second title",
                 choices := Option.none, default := Option.none } := by
  refine ⟨⟨by decide, by decide, rfl⟩, ?_⟩
  exact (c5_one_of_last_string "email" "fallback" oneOfTwoStrings
    [{ type? := some "string", title? := some "first title" },
     { type? := some "string", title? := some "second title" }]
    { type? := some "string", title? := some "second title" }
    (by decide) (by decide) rfl).2 rfl

/-- C6: `_get_args_from_params` coerces exactly the two sentinel strings to
booleans (any value that is not a sentinel passes through untouched), keeps
only entries whose coerced value is a non-blank string, an integer or a
boolean, and on the spec's worked example returns exactly
`a ↦ true, b ↦ false, d ↦ "x", e ↦ 5`. -/
theorem c6_args_from_params (v : PyVal) (d : List (String × PyVal))
    (kv : String × PyVal)
    (h1 : v ≠ .str "boolean_true") (h2 : v ≠ .str "boolean_false")
    (hmem : kv ∈ get_args_from_params d) :
    coerceSentinel v = v
    ∧ keepValue kv.2 = true
    ∧ get_args_from_params exampleParams
      = [("a", .bool true), ("b", .bool false), ("d", .str "x"),
         ("e", .int 5)] := by
  refine ⟨?_, ?_, by decide⟩
  · simp [coerceSentinel, h1, h2]
  · exact (List.mem_filter.mp hmem).2

theorem c6_args_from_params_witness :
    (PyVal.int 7 ≠ .str "boolean_true")
    ∧ (PyVal.int 7 ≠ .str "boolean_false")
    ∧ ("a", PyVal.bool true) ∈ get_args_from_params exampleParams
    ∧ (coerceSentinel (.int 7) = .int 7
       ∧ keepValue (PyVal.bool true) = true
       ∧ get_args_from_params exampleParams
         = [("a", .bool true), ("b", .bool false), ("d", .str "x"),
            ("e", .int 5)]) :=
  ⟨by decide, by decide, by decide,
   c6_args_from_params (.int 7) exampleParams ("a", .bool true)
     (by decide) (by decide) (by decide)⟩

/-- C7: every field emitted by `get_fields` for the `params` step has a key
outside the provider's mapped-fields and excluded-fields sets, and the
emitted field list never contains two fields with the same key. -/
theorem c7_no_mapped_excluded_no_dup (platform : String)
    (args : List (String × ArgSchema)) (flds : List Field) (f : Field)
    (hgf : get_fields "params" platform args = .ok flds)
    (hf : f ∈ flds) :
    f.key ∉ MAPPED_FIELDS platform
    ∧ f.key ∉ EXCLUDED_FIELDS platform
    ∧ (flds.map (fun g => g.key)).Nodup := by
  have hfl : flds = fieldsLoop platform args [] := by
    have : get_fields "params" platform args
        = .ok (fieldsLoop platform args []) := by
      simp [get_fields]
    rw [this] at hgf
    exact (Except.ok.inj hgf).symm
  subst hfl
  obtain ⟨-, h2, h3⟩ := fieldsLoop_key_not_skipped platform args [] f hf
  exact ⟨h2, h3, fieldsLoop_keys_nodup platform args []⟩

theorem c7_no_mapped_excluded_no_dup_witness :
    get_fields "params" "email" emailArgsEx
      = .ok (fieldsLoop "email" emailArgsEx [])
    ∧ (fieldsLoop "email" emailArgsEx []).map (fun f => f.key)
      = ["username", "port"]
    ∧ ∀ f ∈ fieldsLoop "email" emailArgsEx [],
        f.key = "username" →
          f.key ∉ MAPPED_FIELDS "email"
          ∧ f.key ∉ EXCLUDED_FIELDS "email"
          ∧ ((fieldsLoop "email" emailArgsEx []).map
              (fun g => g.key)).Nodup := by
  refine ⟨rfl, by decide, ?_⟩
  intro f hf _
  exact c7_no_mapped_excluded_no_dup "email" emailArgsEx
    (fieldsLoop "email" emailArgsEx []) f rfl hf

/-- C8: a boolean-typed provider argument (not claimed by an earlier branch)
is rendered as a choice field offering exactly the two sentinel values
`boolean_true`/`boolean_false`, and `_get_args_from_params` maps the sentinel
encoding of either boolean back to that boolean, so the UI round-trip
preserves the value. -/
theorem c8_boolean_round_trip (platform key : String) (val : ArgSchema)
    (b : Bool) (hty : val.type? = some "boolean")
    (hone : val.oneOf? = Option.none) :
    processArg platform key val
      = some { label := fieldLabel key, key := key, type := "choice",
               description := "(" ++ key ++ ") " ++ val.title?.getD "",
               choices := some [("Yes", "boolean_true"),
                                ("No", "boolean_false")],
               default := some "boolean_true" }
    ∧ get_args_from_params
        [(key, .str (if b then "boolean_true" else "boolean_false"))]
      = [(key, .bool b)] := by
  constructor
  · simp [processArg, hty, hone]
  · cases b <;>
      simp [get_args_from_params, remove_empties, coerceSentinel, keepValue]

theorem c8_boolean_round_trip_witness :
    boolSchema.type? = some "boolean"
    ∧ boolSchema.oneOf? = Option.none
    ∧ processArg "email" "html_content" boolSchema
      = some { label := "Html Content", key := "html_content",
               type := "choice",
               description := "(html_content) send html",
               choices := some [("Yes", "boolean_true"),
                                ("No", "boolean_false")],
               default := some "boolean_true" }
    ∧ get_args_from_params [("html_content", .str "boolean_true")]
      = [("html_content", .bool true)] := by
  have h := c8_boolean_round_trip "email" "html_content" boolSchema true
    rfl rfl
  exact ⟨rfl, rfl, h.1, h.2⟩

/-- C9: for the `"params"` validation step, the argument dict handed to the
provider's own validator maps every name in the provider's mapped-fields set
to the empty string, overriding any value those names had among the
configured params. -/
theorem c9_mapped_fields_blanked (platform : String)
    (params : List (String × PyVal)) (k : String)
    (hk : k ∈ MAPPED_FIELDS platform) :
    dictLookup (validate_step_args platform params) k
      = some (PyVal.str "") := by
  unfold validate_step_args
  exact dictLookup_dictMerge_blank (get_args_from_params params)
    (MAPPED_FIELDS platform) k hk

theorem c9_mapped_fields_blanked_witness :
    ("message" ∈ MAPPED_FIELDS "email")
    ∧ dictLookup
        (validate_step_args "email" [("message", .str "configured text")])
        "message"
      = some (PyVal.str "") :=
  ⟨by decide,
   c9_mapped_fields_blanked "email" [("message", .str "configured text")]
     "message" (by decide)⟩

/-- C10: for any step name other than `"params"`, `get_fields` raises
`NotImplementedError` while `validate_step` reports success without
examining the configuration. -/
theorem c10_non_params_step (name platform : String)
    (args : List (String × ArgSchema)) (params : List (String × PyVal))
    (validator : List (String × PyVal) → Except String Unit)
    (h : name ≠ "params") :
    get_fields name platform args = .error ()
    ∧ validate_step name platform params validator
      = { success := true, message := "Validation successful." } := by
  constructor
  · simp [get_fields, h]
  · simp [validate_step, h]

theorem c10_non_params_step_witness :
    ("auth" : String) ≠ "params"
    ∧ get_fields "auth" "email" emailArgsEx = .error ()
    ∧ validate_step "auth" "email" [] (fun _ => .ok ())
      = { success := true, message := "Validation successful." } := by
  have h := c10_non_params_step "auth" "email" emailArgsEx []
    (fun _ => .ok ()) (by decide)
  exact ⟨by decide, h.1, h.2⟩

end Notifier
